import Mathlib

/-!
Verification development for the markdown auto-formatting pipeline
(`format_tutorials.py`, the DocumentRewriter core).

The Python source is embedded shallowly:

* Python regular expressions are represented as data (`RE`) mirroring the
  pattern text of the source, and executed by a fuel-bounded backtracking
  matcher with Python `re` semantics: ordered alternation, leftmost match,
  greedy/lazy quantifiers, fixed-width negative lookbehind, negative
  lookahead, word boundaries, and MULTILINE anchors.  `re.sub`, `re.split`
  (including the capture-group insertion behaviour of `re.split`) and
  `re.match` are embedded on top of the matcher.
* Strings are `String`/`List Char`; all text in scope is ASCII, so the
  ASCII readings of `\w`, `\d`, `[a-z]` et al. coincide with Python's.
* Fallible code (`match.group(...)` on a failed match raising
  `AttributeError`) is embedded with `Option`: `none` models the raised
  exception.
* Fuel parameters bound recursion depth; they are chosen far larger than
  any depth reached on the inputs appearing in the theorems, so on those
  inputs the embedded functions compute exactly what the Python functions
  compute.
-/

/-! ## Character classes and Python string helpers -/

/-- Whitespace for Python `str.strip()` / `str.lstrip()` / `str.rstrip()`. -/
def pyIsSpace (c : Char) : Bool :=
  c = ' ' || c = '\t' || c = '\n' || c = '\r' || c = '\x0b' || c = '\x0c'

/-- Python `\w` (ASCII): letters, digits, underscore. -/
def isWordChar (c : Char) : Bool :=
  c.isAlphanum || c = '_'

/-- Python `str.startswith`. -/
def pyStartswith (pre s : String) : Bool :=
  pre.toList.isPrefixOf s.toList

/-- Python `str.endswith`, via reversed lists. -/
def pyEndswith (suf s : String) : Bool :=
  suf.toList.reverse.isPrefixOf s.toList.reverse

/-- Python `str.lstrip()` (no argument: strips whitespace). -/
def pyLstrip (s : String) : String :=
  String.mk (s.toList.dropWhile pyIsSpace)

/-- Python `str.rstrip()` (no argument: strips whitespace). -/
def pyRstrip (s : String) : String :=
  String.mk ((s.toList.reverse.dropWhile pyIsSpace).reverse)

/-- Python `str.strip()` (no argument: strips whitespace). -/
def pyStrip (s : String) : String :=
  pyRstrip (pyLstrip s)

/-- Python `str.lstrip(chars)`: strip any leading char from the set. -/
def pyLstripChars (chars : List Char) (s : String) : String :=
  String.mk (s.toList.dropWhile (fun c => chars.contains c))

/-- Python `str.lower()` (ASCII). -/
def pyLower (s : String) : String :=
  String.mk (s.toList.map Char.toLower)

/-- Python `str.upper()` (ASCII). -/
def pyUpper (s : String) : String :=
  String.mk (s.toList.map Char.toUpper)

/-- Python `str.split("\n")` on the character list: split at every
newline, keeping empty pieces. -/
def splitNL : List Char → List (List Char)
  | [] => [[]]
  | c :: rest =>
    if c = '\n' then [] :: splitNL rest
    else
      match splitNL rest with
      | [] => [[c]]
      | h :: t => (c :: h) :: t

/-- Python `content.split("\n")`. -/
def pySplitNewline (s : String) : List String :=
  (splitNL s.toList).map String.mk

/-! ## Regular-expression syntax

Each constructor corresponds to a construct used by the patterns of
`format_tutorials.py`.  `cls` is a character class, `lit` a literal run,
`alt` ordered alternation, `star` a greedy or lazy `*`, `grp` a numbered
capture group, `nlb` a fixed-width negative lookbehind given as the
left-to-right list of character predicates, `nla` a negative lookahead,
`wordB` the `\b` assertion, `bol`/`eol` the MULTILINE `^`/`$` anchors and
`nbol` the MULTILINE `(?<!^)` assertion. -/

inductive RE where
  | eps
  | cls (p : Char → Bool)
  | lit (s : List Char)
  | seq (a b : RE)
  | alt (a b : RE)
  | star (lazy : Bool) (a : RE)
  | grp (n : Nat) (a : RE)
  | nlb (ps : List (Char → Bool))
  | nla (a : RE)
  | wordB
  | bol
  | eol
  | nbol

namespace RE

/-- Greedy `r+`. -/
def plusG (a : RE) : RE := .seq a (.star false a)

/-- Lazy `r+?`. -/
def plusL (a : RE) : RE := .seq a (.star true a)

/-- Greedy `r?`. -/
def optG (a : RE) : RE := .alt a .eps

/-- Greedy `r*`. -/
def starG (a : RE) : RE := .star false a

/-- Lazy `r*?`. -/
def starL (a : RE) : RE := .star true a

/-- Literal from a string. -/
def litS (s : String) : RE := .lit s.toList

/-- Ordered alternation of a non-empty list (left to right, as `a|b|c`). -/
def altList : List RE → RE
  | [] => .eps
  | [r] => r
  | r :: rs => .alt r (altList rs)

end RE

/-! ## The matcher

State while matching inside a string: `left` is the reversed list of
characters before the current position (used by lookbehind, `\b` and
MULTILINE `^`), `rest` the characters from the current position on,
`caps` the capture groups recorded so far (most recent first, as Python
keeps the last repetition of a group). -/

abbrev Caps := List (Nat × List Char)

/-- Does the fixed-width lookbehind pattern match the characters
immediately before the position?  `ps` is left to right, `left` is
reversed (nearest character first). -/
def lookbehindMatches (ps : List (Char → Bool)) (left : List Char) : Bool :=
  (ps.reverse.zip left).length = ps.length &&
    (ps.reverse.zip left).all (fun pc => pc.1 pc.2)

/-- Position is at a MULTILINE line start (`^`). -/
def atLineStart (left : List Char) : Bool :=
  match left with
  | [] => true
  | c :: _ => c = '\n'

/-- Position is at a MULTILINE line end (`$`). -/
def atLineEnd (rest : List Char) : Bool :=
  match rest with
  | [] => true
  | c :: _ => c = '\n'

/-- Word/non-word transition for `\b`; the edge of the string counts as
non-word. -/
def atWordBoundary (left rest : List Char) : Bool :=
  let lw := match left with | [] => false | c :: _ => isWordChar c
  let rw := match rest with | [] => false | c :: _ => isWordChar c
  lw != rw

/-- Backtracking matcher in continuation-passing style.  `k` receives the
state after the sub-match.  `fuel` bounds the recursion depth; every
recursive call decrements it, and each iteration of a `star` passes
through one decrement, so any fuel exceeding (pattern size × input
length) is enough for the matcher to behave exactly like Python `re`. -/
def matchHere : Nat → RE → List Char → List Char → Caps →
    (List Char → List Char → Caps → Option (List Char × List Char × Caps)) →
    Option (List Char × List Char × Caps)
  | 0, _, _, _, _, _ => none
  | fuel + 1, r, left, rest, caps, k =>
    match r with
    | .eps => k left rest caps
    | .cls p =>
      match rest with
      | [] => none
      | c :: rest' => if p c then k (c :: left) rest' caps else none
    | .lit s =>
      if s.isPrefixOf rest then k (s.reverse ++ left) (rest.drop s.length) caps
      else none
    | .seq a b =>
      matchHere fuel a left rest caps (fun l r c => matchHere fuel b l r c k)
    | .alt a b =>
      match matchHere fuel a left rest caps k with
      | some res => some res
      | none => matchHere fuel b left rest caps k
    | .star lazy a =>
      if lazy then
        match k left rest caps with
        | some res => some res
        | none =>
          matchHere fuel a left rest caps (fun l r c =>
            if r.length = rest.length then none
            else matchHere fuel (.star lazy a) l r c k)
      else
        match matchHere fuel a left rest caps (fun l r c =>
            if r.length = rest.length then none
            else matchHere fuel (.star lazy a) l r c k) with
        | some res => some res
        | none => k left rest caps
    | .grp n a =>
      matchHere fuel a left rest caps (fun l r c =>
        k l r ((n, rest.take (rest.length - r.length)) :: c))
    | .nlb ps =>
      if lookbehindMatches ps left then none else k left rest caps
    | .nla a =>
      match matchHere fuel a left rest caps (fun l r c => some (l, r, c)) with
      | some _ => none
      | none => k left rest caps
    | .wordB => if atWordBoundary left rest then k left rest caps else none
    | .bol => if atLineStart left then k left rest caps else none
    | .eol => if atLineEnd rest then k left rest caps else none
    | .nbol => if atLineStart left then none else k left rest caps

/-- Fuel used by the top-level wrappers for a text of length `n`. -/
def engineFuel (n : Nat) : Nat := 4000 + 80 * n

/-- Try the pattern at the current position and then at every later
position (leftmost match).  Returns the text before the match, the match
itself, its captures, and the state after the match. -/
def searchStep (fuel : Nat) (r : RE) :
    List Char → List Char → List Char →
    Option (List Char × List Char × Caps × List Char × List Char)
  | acc, left, rest =>
    match matchHere fuel r left rest [] (fun l rst c => some (l, rst, c)) with
    | some (left', rest', caps) =>
      some (acc.reverse, rest.take (rest.length - rest'.length), caps, left', rest')
    | none =>
      match rest with
      | [] => none
      | c :: rest' => searchStep fuel r (c :: acc) (c :: left) rest'

/-- Python `re.sub(r, repl, text)`: scan for non-overlapping matches left
to right, replacing each; `repl` receives the whole match (group 0).
Lookbehinds see the original text, as in Python.  `n` bounds the number
of replacements (always at least the input length plus one, and every
pattern in this file consumes at least one character per match, so the
bound is never reached). -/
def subLoop (fuel : Nat) (r : RE) (repl : List Char → List Char) :
    Nat → List Char → List Char → List Char
  | 0, _, rest => rest
  | n + 1, left, rest =>
    match searchStep fuel r [] left rest with
    | none => rest
    | some (pre, matched, _, left', rest') =>
      if matched.isEmpty then rest
      else pre ++ repl matched ++ subLoop fuel r repl n left' rest'

/-- String-level `re.sub`. -/
def reSub (r : RE) (repl : String → String) (s : String) : String :=
  String.mk (subLoop (engineFuel s.length) r
    (fun m => (repl (String.mk m)).toList) (s.length + 1) [] s.toList)

/-- Python `re.split(r, text)` with capture groups: the text between
matches is kept, and for each match the contents of groups `1..g` are
inserted into the result (the part of the match outside every group is
dropped, exactly as `re.split` does). -/
def splitLoop (fuel : Nat) (r : RE) (g : Nat) :
    Nat → List Char → List Char → List (List Char)
  | 0, _, rest => [rest]
  | n + 1, left, rest =>
    match searchStep fuel r [] left rest with
    | none => [rest]
    | some (pre, matched, caps, left', rest') =>
      if matched.isEmpty then [rest]
      else
        pre :: (List.range g).map (fun i => ((caps.find? (fun e => e.1 = i + 1)).map (·.2)).getD [])
          ++ splitLoop fuel r g n left' rest'

/-- String-level `re.split`. -/
def reSplit (r : RE) (g : Nat) (s : String) : List String :=
  (splitLoop (engineFuel s.length) r g (s.length + 1) [] s.toList).map String.mk

/-- Python `re.match(r, text)` viewed as a Boolean: does the pattern
match at the start of the text (not necessarily to the end)? -/
def reMatchStart (r : RE) (s : String) : Bool :=
  (matchHere (engineFuel s.length) r [] s.toList []
    (fun l rst c => some (l, rst, c))).isSome

/-- Python `re.search(r, text)` viewed as a Boolean. -/
def reSearch (r : RE) (s : String) : Bool :=
  (searchStep (engineFuel s.length) r [] [] s.toList).isSome

/-! ## Constants of `format_tutorials.py` -/

/-- Tab width used when converting indentation (`TAB_WIDTH = 4`). -/
def TAB_WIDTH : Nat := 4

/-- Words exempted from italicization (`WORDS_TO_KEEP_UNFORMATTED`). -/
def WORDS_TO_KEEP_UNFORMATTED : List String :=
  ["gdquest", "gdscript", "godot", "stack overflow", "google", "youtube",
   "twitter", "facebook", "discord", "instagram", "duckduckgo"]

/-- Modelled from the spec: `BUILT_IN_CLASSES` is imported from
`lib.gdscript_classes`, a module that is not part of the sources at hand;
the spec describes it as "an external, pre-populated flat list of
recognized type names" (Godot class names).  A representative flat list
of such names is used here; no claim depends on its exact contents, only
on it being a list of Godot class names (in particular it contains none
of the ordinary words appearing in the concrete inputs below). -/
def BUILT_IN_CLASSES : List String :=
  ["Node2D", "Node", "Sprite2D", "Sprite", "Control", "Label", "Button",
   "Camera2D", "Area2D", "Vector2", "Vector3", "Transform2D", "RigidBody2D",
   "KinematicBody2D", "AnimationPlayer", "Timer", "Tween", "CanvasLayer",
   "Resource", "Texture", "TileMap", "Path2D"]

/-! ## Character classes used by the patterns (all ASCII, as in the source) -/

/-- Class `[A-Z0-9]`. -/
def isUpperDigit (c : Char) : Bool := c.isUpper || c.isDigit

/-- Class `[a-fA-F0-9]`. -/
def isHexDigit (c : Char) : Bool :=
  c.isDigit || ('a' ≤ c && c ≤ 'f') || ('A' ≤ c && c ≤ 'F')

/-- Class `[\"'_a-zA-Z0-9, ]` from `SINGLE_FUNCTION_CALL`. -/
def isCallArgChar (c : Char) : Bool :=
  c = '"' || c = '\'' || c = '_' || c.isAlpha || c.isDigit || c = ',' || c = ' '

/-- Class `[\d\., ]` from the bracketed-range alternative. -/
def isNumRangeChar (c : Char) : Bool :=
  c.isDigit || c = '.' || c = ',' || c = ' '

/-- Backtick or asterisk: the class `[`*]` of `split_formatted_words`. -/
def isMarkChar (c : Char) : Bool := c = '`' || c = '*'

/-- The `.` of a pattern compiled without DOTALL. -/
def noNL (c : Char) : Bool := c != '\n'

/-- The `.` of a pattern compiled with DOTALL. -/
def anyChar (_ : Char) : Bool := true

/-! ## The compiled patterns

Each definition mirrors the regular expression of the same name in
`format_tutorials.py`; the comment above each gives the original pattern
text. -/

/-- Pattern `(```[a-z]*.*?```)` with DOTALL (`RE_SPLIT_CODE_BLOCK`). -/
def RE_SPLIT_CODE_BLOCK : RE :=
  .grp 1 (.seq (RE.litS "```") (.seq (RE.starG (.cls Char.isLower))
    (.seq (RE.starL (.cls anyChar)) (RE.litS "```"))))

/-- Pattern `(<.+?>.*?<\/.+?>)` with DOTALL (`RE_SPLIT_HTML`). -/
def RE_SPLIT_HTML : RE :=
  .grp 1 (.seq (RE.litS "<") (.seq (RE.plusL (.cls anyChar)) (.seq (RE.litS ">")
    (.seq (RE.starL (.cls anyChar)) (.seq (RE.litS "</")
      (.seq (RE.plusL (.cls anyChar)) (RE.litS ">")))))))

/-- Pattern `({%.+?%})` (`RE_SPLIT_TEMPLATE`). -/
def RE_SPLIT_TEMPLATE : RE :=
  .grp 1 (.seq (RE.litS "\x7b%") (.seq (RE.plusL (.cls noNL)) (RE.litS "%\x7d")))

/-- Pattern `(---.+?---\n)` with DOTALL (`RE_SPLIT_FRONT_MATTER`). -/
def RE_SPLIT_FRONT_MATTER : RE :=
  .grp 1 (.seq (RE.litS "---") (.seq (RE.plusL (.cls anyChar)) (RE.litS "---\n")))

/-- Pattern `\b(?<!`)(Name1|Name2|...)\b` over `BUILT_IN_CLASSES`
(`RE_BUILT_IN_CLASSES`). -/
def RE_BUILT_IN_CLASSES : RE :=
  .seq .wordB (.seq (.nlb [fun c => c = '`'])
    (.seq (RE.altList (BUILT_IN_CLASSES.map RE.litS)) .wordB))

/-- Pattern `\b((res|user)://)?/?(([\w]+/)+(\w*\.\w+)?\b)`
(`PATTERN_DIR_PATH`). -/
def PATTERN_DIR_PATH : RE :=
  .seq .wordB (.seq (RE.optG (.seq (.alt (RE.litS "res") (RE.litS "user")) (RE.litS "://")))
    (.seq (RE.optG (RE.litS "/"))
      (.seq (RE.plusG (.seq (RE.plusG (.cls isWordChar)) (RE.litS "/")))
        (.seq (RE.optG (.seq (RE.starG (.cls isWordChar))
          (.seq (RE.litS ".") (RE.plusG (.cls isWordChar))))) .wordB))))

/-- Pattern `(res|user)://\w+\.\w+` (`PATTERN_FILE_AT_ROOT`). -/
def PATTERN_FILE_AT_ROOT : RE :=
  .seq (.alt (RE.litS "res") (RE.litS "user")) (.seq (RE.litS "://")
    (.seq (RE.plusG (.cls isWordChar)) (.seq (RE.litS ".") (RE.plusG (.cls isWordChar)))))

/-- Alternation `png|jpe?g|mp4|mkv|t?res|t?scn|gd|py|shader` built from
`SUPPORTED_EXTENSIONS`. -/
def SUPPORTED_EXTENSIONS_RE : RE :=
  RE.altList
    [RE.litS "png",
     .seq (RE.litS "jp") (.seq (RE.optG (RE.litS "e")) (RE.litS "g")),
     RE.litS "mp4",
     RE.litS "mkv",
     .seq (RE.optG (RE.litS "t")) (RE.litS "res"),
     .seq (RE.optG (RE.litS "t")) (RE.litS "scn"),
     RE.litS "gd",
     RE.litS "py",
     RE.litS "shader"]

/-- Pattern `(\w+\.(png|jpe?g|...))` (`PATTERN_FILENAME_ONLY`). -/
def PATTERN_FILENAME_ONLY : RE :=
  .seq (RE.plusG (.cls isWordChar)) (.seq (RE.litS ".") SUPPORTED_EXTENSIONS_RE)

/-- `RE_FILE_PATH`: the `|`-join of the three path patterns, in source
order. -/
def RE_FILE_PATH : RE :=
  RE.altList [PATTERN_DIR_PATH, PATTERN_FILE_AT_ROOT, PATTERN_FILENAME_ONLY]

/-- Pattern `\b_?\w+(\.\w+)*\([\"'_a-zA-Z0-9, ]*\)` (`SINGLE_FUNCTION_CALL`). -/
def SINGLE_FUNCTION_CALL : RE :=
  .seq .wordB (.seq (RE.optG (RE.litS "_")) (.seq (RE.plusG (.cls isWordChar))
    (.seq (RE.starG (.seq (RE.litS ".") (RE.plusG (.cls isWordChar))))
      (.seq (RE.litS "(") (.seq (RE.starG (.cls isCallArgChar)) (RE.litS ")"))))))

/-- First alternative `\b_\w+` of `SINGLE_VARIABLE`. -/
def SINGLE_VARIABLE_A : RE :=
  .seq .wordB (.seq (RE.litS "_") (RE.plusG (.cls isWordChar)))

/-- Second alternative `\b[a-zA-Z0-9]+_\w+` of `SINGLE_VARIABLE`. -/
def SINGLE_VARIABLE_B : RE :=
  .seq .wordB (.seq (RE.plusG (.cls Char.isAlphanum))
    (.seq (RE.litS "_") (RE.plusG (.cls isWordChar))))

/-- Pattern `\b_?\w+\.\w+` (`VARIABLE_AND_PROPERTY`). -/
def VARIABLE_AND_PROPERTY : RE :=
  .seq .wordB (.seq (RE.optG (RE.litS "_")) (.seq (RE.plusG (.cls isWordChar))
    (.seq (RE.litS ".") (RE.plusG (.cls isWordChar)))))

/-- `RE_VARIABLE_OR_FUNCTION`: `|`-join of the variable/function patterns,
in source order. -/
def RE_VARIABLE_OR_FUNCTION : RE :=
  RE.altList [SINGLE_FUNCTION_CALL, SINGLE_VARIABLE_A, SINGLE_VARIABLE_B,
    VARIABLE_AND_PROPERTY]

/-- Pattern
`(\d+x\d+)|(\[[\d\., ]+\])|(-?\d+\.\d+)|(?<![\nA-Za-z])(-?\d+)(?![A-Za-z])(?!\. )`
(`RE_NUMERIC_VALUES_AND_RANGES`). -/
def RE_NUMERIC_VALUES_AND_RANGES : RE :=
  RE.altList
    [.seq (RE.plusG (.cls Char.isDigit)) (.seq (RE.litS "x") (RE.plusG (.cls Char.isDigit))),
     .seq (RE.litS "[") (.seq (RE.plusG (.cls isNumRangeChar)) (RE.litS "]")),
     .seq (RE.optG (RE.litS "-")) (.seq (RE.plusG (.cls Char.isDigit))
       (.seq (RE.litS ".") (RE.plusG (.cls Char.isDigit)))),
     .seq (.nlb [fun c => c = '\n' || c.isAlpha])
       (.seq (RE.optG (RE.litS "-")) (.seq (RE.plusG (.cls Char.isDigit))
         (.seq (.nla (.cls Char.isAlpha)) (.nla (RE.litS ". ")))))]

/-- Pattern `(?<![\-\.] )(?<!^)[A-Z0-9]+[a-zA-Z0-9]*( (-> )?[A-Z][a-zA-Z0-9]+(\.\.\.)?)+`
with MULTILINE (`RE_TO_ITALICIZE_SEQUENCE`). -/
def RE_TO_ITALICIZE_SEQUENCE : RE :=
  .seq (.nlb [fun c => c = '-' || c = '.', fun c => c = ' ']) (.seq .nbol
    (.seq (RE.plusG (.cls isUpperDigit)) (.seq (RE.starG (.cls Char.isAlphanum))
      (RE.plusG (.seq (RE.litS " ") (.seq (RE.optG (RE.litS "-> "))
        (.seq (.cls Char.isUpper) (.seq (RE.plusG (.cls Char.isAlphanum))
          (RE.optG (RE.litS "..."))))))))))

/-- Pattern `^([A-Z]\w+[A-Z]\w+)|(?<![\.\-:;?!] )(?<!^)([A-Z][a-zA-Z0-9]+(\.\.\.)?)`
with MULTILINE (`RE_TO_ITALICIZE_ONE_WORD`). -/
def RE_TO_ITALICIZE_ONE_WORD : RE :=
  .alt
    (.seq .bol (.seq (.cls Char.isUpper) (.seq (RE.plusG (.cls isWordChar))
      (.seq (.cls Char.isUpper) (RE.plusG (.cls isWordChar))))))
    (.seq (.nlb [fun c => c = '.' || c = '-' || c = ':' || c = ';' || c = '?' || c = '!',
        fun c => c = ' ']) (.seq .nbol
      (.seq (.cls Char.isUpper) (.seq (RE.plusG (.cls Char.isAlphanum))
        (RE.optG (RE.litS "..."))))))

/-- Pattern `(!?\[.*\]\(.+\)|^#+ .+$)` with MULTILINE (`RE_TO_IGNORE`). -/
def RE_TO_IGNORE : RE :=
  .grp 1 (.alt
    (.seq (RE.optG (RE.litS "!")) (.seq (RE.litS "[") (.seq (RE.starG (.cls noNL))
      (.seq (RE.litS "]") (.seq (RE.litS "(") (.seq (RE.plusG (.cls noNL)) (RE.litS ")")))))))
    (.seq .bol (.seq (RE.plusG (.cls (fun c => c = '#'))) (.seq (RE.litS " ")
      (.seq (RE.plusG (.cls noNL)) .eol)))))

/-- Alternation `Ctrl|Alt|Shift|CTRL|ALT|SHIFT` of the modifier names. -/
def KEY_MODIFIERS_RE : RE :=
  RE.altList [RE.litS "Ctrl", RE.litS "Alt", RE.litS "Shift",
    RE.litS "CTRL", RE.litS "ALT", RE.litS "SHIFT"]

/-- Pattern `(?<!\d\. ) +((Ctrl|Alt|Shift|CTRL|ALT|SHIFT) ?\+ ?)(F\d{1,2}|[A-Z0-9])`
(`RE_KEYBOARD_SHORTCUTS`). -/
def RE_KEYBOARD_SHORTCUTS : RE :=
  .seq (.nlb [Char.isDigit, fun c => c = '.', fun c => c = ' '])
    (.seq (RE.plusG (.cls (fun c => c = ' ')))
      (.seq (.seq KEY_MODIFIERS_RE (.seq (RE.optG (RE.litS " "))
        (.seq (RE.litS "+") (RE.optG (RE.litS " ")))))
        (.alt (.seq (RE.litS "F") (.seq (.cls Char.isDigit) (RE.optG (.cls Char.isDigit))))
          (.cls isUpperDigit))))

/-- Pattern `Ctrl|Alt|Shift|CTRL|ALT|SHIFT|[A-Z0-9]+`
(`RE_KEYBOARD_SHORTCUTS_ONE_ELEMENT`). -/
def RE_KEYBOARD_SHORTCUTS_ONE_ELEMENT : RE :=
  .alt KEY_MODIFIERS_RE (RE.plusG (.cls isUpperDigit))

/-- Pattern `#[a-fA-F0-9]{3,8}` (`RE_HEX_VALUES`); the counted repetition
is unrolled as three mandatory and five greedy-optional digits. -/
def RE_HEX_VALUES : RE :=
  .seq (RE.litS "#") (.seq (.cls isHexDigit) (.seq (.cls isHexDigit)
    (.seq (.cls isHexDigit) (RE.optG (.seq (.cls isHexDigit)
      (RE.optG (.seq (.cls isHexDigit) (RE.optG (.seq (.cls isHexDigit)
        (RE.optG (.seq (.cls isHexDigit) (RE.optG (.cls isHexDigit)))))))))))))

/-- Pattern `[^\w]("[^"]*")[^\w]` (`RE_INSIDE_DOUBLE_QUOTES`). -/
def RE_INSIDE_DOUBLE_QUOTES : RE :=
  .seq (.cls (fun c => !(isWordChar c)))
    (.seq (.grp 1 (.seq (RE.litS "\"") (.seq (RE.starG (.cls (fun c => c != '"')))
      (RE.litS "\"")))) (.cls (fun c => !(isWordChar c))))

/-- Pattern `[^\w]('[^']*')[^\w]` (`RE_INSIDE_SINGLE_QUOTES`). -/
def RE_INSIDE_SINGLE_QUOTES : RE :=
  .seq (.cls (fun c => !(isWordChar c)))
    (.seq (.grp 1 (.seq (RE.litS "'") (.seq (RE.starG (.cls (fun c => c != '\'')))
      (RE.litS "'")))) (.cls (fun c => !(isWordChar c))))

/-- Pattern `^(> )(.+?)$` with MULTILINE (`RE_MARKDOWN_BLOCKQUOTE`). -/
def RE_MARKDOWN_BLOCKQUOTE : RE :=
  .seq .bol (.seq (.grp 1 (RE.litS "> ")) (.seq (.grp 2 (RE.plusL (.cls noNL))) .eol))

/-- Pattern `([`*].+?[`*])` of `split_formatted_words`. -/
def RE_FORMATTED_WORDS : RE :=
  .grp 1 (.seq (.cls isMarkChar) (.seq (RE.plusL (.cls noNL)) (.cls isMarkChar)))

/-- Pattern `(`+\b)|(\b`+)` of `replace_double_inline_code_marks`; the
pattern string is not raw, so `\b` is the backspace character U+0008, not
a word-boundary assertion. -/
def RE_DOUBLE_MARKS : RE :=
  .alt (.seq (RE.plusG (.cls (fun c => c = '`'))) (RE.litS "\x08"))
    (.seq (RE.litS "\x08") (RE.plusG (.cls (fun c => c = '`'))))

/-- Pattern `\t*#.+` with MULTILINE, used on code-block bodies. -/
def RE_FILL_COMMENT : RE :=
  .seq (RE.starG (.cls (fun c => c = '\t'))) (.seq (RE.litS "#") (RE.plusG (.cls noNL)))

/-- Pattern `^[`*]` checked with `re.match` in `format_line`. -/
def RE_MARK_AT_START : RE := .cls isMarkChar

/-! ## The formatter functions -/

/-- `inline_code_built_in_classes`. -/
def inline_code_built_in_classes (text : String) : String :=
  reSub RE_BUILT_IN_CLASSES (fun m => "`" ++ m ++ "`") text

/-- `inline_code_paths`. -/
def inline_code_paths (text : String) : String :=
  reSub RE_FILE_PATH (fun m => "`" ++ m ++ "`") text

/-- `inline_code_variables_and_functions`. -/
def inline_code_variables_and_functions (text : String) : String :=
  reSub RE_VARIABLE_OR_FUNCTION (fun m => "`" ++ m ++ "`") text

/-- `inline_code_hex_values`. -/
def inline_code_hex_values (text : String) : String :=
  reSub RE_HEX_VALUES (fun m => "`" ++ m ++ "`") text

/-- `inline_code_numeric_values`. -/
def inline_code_numeric_values (text : String) : String :=
  reSub RE_NUMERIC_VALUES_AND_RANGES (fun m => "`" ++ m ++ "`") text

/-- `replace_double_inline_code_marks`: "Finds and replaces cases where
we have `` to `."  The function substitutes its (backspace-containing)
pattern with a single backtick. -/
def replace_double_inline_code_marks (text : String) : String :=
  reSub RE_DOUBLE_MARKS (fun _ => "`") text

/-- `italicize_word_sequences`. -/
def italicize_word_sequences (text : String) : String :=
  reSub RE_TO_ITALICIZE_SEQUENCE (fun m => "*" ++ m ++ "*") text

/-- `italicize_other_words`: wraps the match in `*`…`*` unless its
lowercase form is in `WORDS_TO_KEEP_UNFORMATTED` or it is all-caps. -/
def italicize_other_words (text : String) : String :=
  reSub RE_TO_ITALICIZE_ONE_WORD
    (fun m =>
      if WORDS_TO_KEEP_UNFORMATTED.contains (pyLower m) || pyUpper m = m then m
      else "*" ++ m ++ "*")
    text

/-- `add_keyboard_tags`: each keyboard-chord match has its elements
wrapped in `<kbd>` tags, except a bare `I`. -/
def add_keyboard_tags (text : String) : String :=
  reSub RE_KEYBOARD_SHORTCUTS
    (fun m =>
      if pyStrip m = "I" then m
      else reSub RE_KEYBOARD_SHORTCUTS_ONE_ELEMENT
        (fun e => "<kbd>" ++ e ++ "</kbd>") m)
    text

/-- The `FORMATTERS` table, in source order. -/
def FORMATTERS : List (String → String) :=
  [inline_code_paths,
   inline_code_variables_and_functions,
   italicize_word_sequences,
   add_keyboard_tags,
   inline_code_built_in_classes,
   inline_code_hex_values,
   italicize_other_words,
   inline_code_numeric_values]

/-! ## Line formatting -/

/-- `split_formatted_words` (inner helper of `format_line`):
`[s for s in re.split(r"([`*].+?[`*])", text) if s != ""]`. -/
def split_formatted_words (text : String) : List String :=
  (reSplit RE_FORMATTED_WORDS 1 text).filter (fun s => s ≠ "")

/-- The formatter loop of `format_line`: the first formatter that changes
the line wins (the loop `break`s after it); `none` when no formatter
changes the line. -/
def first_changing_formatter : List (String → String) → String → Option String
  | [], _ => none
  | f :: fs, line =>
    let formatted_line := f line
    if formatted_line = line then first_changing_formatter fs line
    else some formatted_line

/-- `format_line`, with explicit recursion fuel (the Python function
recurses on the pieces of the mark-split; fuel exhaustion returns the
line unchanged and is never reached on the inputs below). -/
def format_line : Nat → String → String
  | 0, line => line
  | fuel + 1, line =>
    let split_line := split_formatted_words line
    if split_line.length > 1 then
      String.join (split_line.map (format_line fuel))
    else if reMatchStart RE_MARK_AT_START line then line
    else
      match first_changing_formatter FORMATTERS line with
      | none => line
      | some formatted_line =>
        let split_line2 := split_formatted_words formatted_line
        if split_line2.length > 1 then
          String.join (split_line2.map (format_line fuel))
        else formatted_line

/-- `format_content`: apply `format_line` to each newline-separated line
and rejoin. -/
def format_content (content : String) : String :=
  String.intercalate "\n"
    ((pySplitNewline content).map (format_line (content.length + 64)))

/-! ## Code-block formatting -/

/-- Python `content.replace(" " * TAB_WIDTH, "\t")` with `TAB_WIDTH = 4`,
specialised to the module's constant: scan left to right, replace each
run of four spaces by one tab without rescanning the replacement.  A
list shorter than four characters cannot hold a run, so the fallback arm
of the inner match just copies. -/
def convertSpacesGo : List Char → List Char
  | ' ' :: ' ' :: ' ' :: ' ' :: rest => '\t' :: convertSpacesGo rest
  | c :: rest => c :: convertSpacesGo rest
  | [] => []

/-- `convert_spaces_to_tabs` (inner helper of `format_code_block`):
`content.replace(" " * TAB_WIDTH, "\t")`. -/
def convert_spaces_to_tabs (content : String) : String :=
  String.mk (convertSpacesGo content.toList)

/-- Words of a text, splitting on whitespace runs (Python `str.split()`),
used by the `textwrap.wrap` model. -/
def splitWordsAux : List Char → List Char → List (List Char)
  | [], acc => if acc.isEmpty then [] else [acc.reverse]
  | c :: rest, acc =>
    if pyIsSpace c then
      if acc.isEmpty then splitWordsAux rest []
      else acc.reverse :: splitWordsAux rest []
    else splitWordsAux rest (c :: acc)

/-- Greedy line packing for the `textwrap.wrap` model: fit as many words
as possible per line joined by single spaces, breaking words longer than
the width (`break_long_words=True`).  `fuel` bounds iterations. -/
def packWords (w : Nat) : Nat → List (List Char) → List Char → List (List Char)
  | 0, ws, cur => if cur.isEmpty then ws else [cur]
  | fuel + 1, ws, cur =>
    match ws with
    | [] => if cur.isEmpty then [] else [cur]
    | word :: rest =>
      if cur.isEmpty then
        if word.length ≤ w then packWords w fuel rest word
        else word.take w :: packWords w fuel (word.drop w :: rest) []
      else if cur.length + 1 + word.length ≤ w then
        packWords w fuel rest (cur ++ ' ' :: word)
      else cur :: packWords w fuel (word :: rest) []

/-- Modelled from the spec: `textwrap.wrap` is the Python standard
library (an external collaborator of the source); its default behaviour
— normalise whitespace, split into words, and greedily pack lines of at
most `width` columns, breaking over-long words — is modelled here.  The
theorems below never depend on its output (no theorem input contains a
code-block comment), only on the function being total. -/
def textwrapWrap (width : Nat) (text : String) : List String :=
  let w := max width 1
  let words := splitWordsAux text.toList []
  (packWords w (text.length + words.length + 2) words []).map String.mk

/-- `fill_comment` (inner helper of `format_code_block`), for one matched
`\t*#.+` run with the default `line_length = 80`. -/
def fill_comment (m : String) : String :=
  let l := m.toList
  let indent_level := (l.takeWhile (fun c => c = '\t')).length
  let dash_count := (((l.drop indent_level).take 2).filter (fun c => c = '#')).length
  let prefix_width := TAB_WIDTH * indent_level + dash_count + 1
  let wrap_length := 80 - prefix_width
  let trimmed_text := l.dropWhile (fun c => c = '\t' || c = '#' || c = ' ')
  let wrapped := textwrapWrap wrap_length (String.mk trimmed_text)
  String.intercalate "\n"
    (wrapped.map (fun line =>
      String.mk (List.replicate indent_level '\t' ++ List.replicate dash_count '#')
        ++ " " ++ line))

/-- The transformation `format_code_block` applies to the body of a code
block: space-to-tab conversion, then comment re-wrapping. -/
def code_body_transform (content : List Char) : List Char :=
  (reSub RE_FILL_COMMENT fill_comment (convert_spaces_to_tabs (String.mk content))).toList

/-- The opening/closing fence. -/
def fence3 : List Char := ['`', '`', '`']

/-- Split a list at the first occurrence of `pat`: returns the part
before the occurrence and the part after it (the occurrence removed), or
`none` when `pat` does not occur. -/
def splitFirstOcc (pat : List Char) : List Char → Option (List Char × List Char)
  | [] => if pat.isPrefixOf [] then some ([], []) else none
  | c :: rest =>
    if pat.isPrefixOf (c :: rest) then some ([], (c :: rest).drop pat.length)
    else (splitFirstOcc pat rest).map (fun pr => (c :: pr.1, pr.2))

/-- `format_code_block` on the character list.  It embeds
`re.match("```([a-z]+)?\n(.*?)```", text, flags=re.DOTALL)` directly: the
anchored match takes the maximal lowercase run after the opening fence as
the greedy `([a-z]+)?` (backtracking to a shorter run cannot help, since
the run would then be followed by a lowercase letter, not `\n`), requires
the newline, and the lazy `(.*?)` ends at the first later occurrence of
three backticks.  A failed match makes `match.group(1)` raise
`AttributeError`, modelled by `none`; text after the closing fence is
dropped, as the output is rebuilt from the groups only. -/
def format_code_block_l (l : List Char) : Option (List Char) :=
  match l with
  | '`' :: '`' :: '`' :: rest =>
    let tag := rest.takeWhile Char.isLower
    match rest.dropWhile Char.isLower with
    | '\n' :: body =>
      match splitFirstOcc fence3 body with
      | some (content, _) =>
        some (fence3 ++ (if tag.isEmpty then "gdscript".toList else tag)
          ++ '\n' :: code_body_transform content ++ fence3)
      | none => none
    | _ => none
  | _ => none

/-- `format_code_block` on strings. -/
def format_code_block (text : String) : Option String :=
  (format_code_block_l text.toList).map String.mk

/-! ## Document-level processing (`process_content`) -/

/-- `is_code_block` (inner helper of `process_content`). -/
def is_code_block (text : String) : Bool := pyStartswith "```" text

/-- The `ignore_pairs` table of `is_unformatted_block`, in source order. -/
def ignore_pairs : List (String × String) :=
  [("```", "```"), ("<", ">"), ("---", "---"), ("\x7b%", "%\x7d"), ("'", "'"), ("\"", "\"")]

/-- `is_unformatted_block`: the text, stripped, starts and ends with one
of the delimiter pairs. -/
def is_unformatted_block (text : String) : Bool :=
  ignore_pairs.any (fun p =>
    pyStartswith p.1 (pyLstrip text) && pyEndswith p.2 (pyRstrip text))

/-- `split_by_regex`: a block already recognised as unformatted is kept
whole; otherwise it is split by the pattern (`g` is the pattern's number
of capture groups, inserted into the result by `re.split`). -/
def split_by_regex (g : Nat) (r : RE) (text : String) : List String :=
  if is_unformatted_block text then [text] else reSplit r g text

/-- The segmentation phase of `process_content`: split on the code-block
pattern, then refine by front matter, HTML, template, double-quote,
single-quote and blockquote patterns (in that order), flatten, and drop
empty strings. -/
def sections_of (content : String) : List String :=
  let s0 := reSplit RE_SPLIT_CODE_BLOCK 1 content
  let s1 := (s0.map (split_by_regex 1 RE_SPLIT_FRONT_MATTER)).flatten
  let s2 := (s1.map (split_by_regex 1 RE_SPLIT_HTML)).flatten
  let s3 := (s2.map (split_by_regex 1 RE_SPLIT_TEMPLATE)).flatten
  let s4 := (s3.map (split_by_regex 1 RE_INSIDE_DOUBLE_QUOTES)).flatten
  let s5 := (s4.map (split_by_regex 1 RE_INSIDE_SINGLE_QUOTES)).flatten
  let s6 := (s5.map (split_by_regex 2 RE_MARKDOWN_BLOCKQUOTE)).flatten
  s6.filter (fun t => t ≠ "")

/-- The `RE_TO_IGNORE` chunking of a prose block
(`re.split(RE_TO_IGNORE, block)`). -/
def prose_chunks (block : String) : List String :=
  reSplit RE_TO_IGNORE 1 block

/-- Per-chunk dispatch inside the prose branch of `process_content`: a
chunk matching `RE_TO_IGNORE` at its start is kept verbatim, any other
chunk is formatted. -/
def process_chunk (chunk : String) : String :=
  if reMatchStart RE_TO_IGNORE chunk then chunk else format_content chunk

/-- Per-section dispatch of `process_content`'s output loop: code blocks
go to `format_code_block` (whose failure, `none`, models the
`AttributeError` escaping `process_content`), unformatted blocks pass
through, and prose is chunked and formatted. -/
def process_block (block : String) : Option String :=
  if is_code_block block then format_code_block block
  else if is_unformatted_block block then some block
  else some (String.join ((prose_chunks block).map process_chunk))

/-- `process_content`: segmentation, per-section dispatch, and
concatenation.  `none` models an uncaught exception. -/
def process_content (content : String) : Option String :=
  ((sections_of content).mapM process_block).map String.join

/-! ## The batch driver (`main`) -/

/-- `ProcessedDocument`: maps a file path to formatted content. -/
structure ProcessedDocument where
  file_path : String
  content : String
deriving DecidableEq

/-- Outcome of a `main` run, after the version check: abort with exit
code `ERROR_INCORRECT_FILE_PATHS` (2), an uncaught exception while
processing, or success with the processed documents. -/
inductive MainResult where
  | exitBadPaths
  | crashed
  | ok (docs : List ProcessedDocument)
deriving DecidableEq

/-- The filesystem, as the association of existing paths to contents. -/
def read_file (fs : List (String × String)) (p : String) : Option String :=
  (fs.find? (fun e => e.1 = p)).map (fun e => e.2)

/-- The filter predicate of `main`:
`f.lower().endswith(".md") and os.path.exists(f)`. -/
def valid_path (fs : List (String × String)) (f : String) : Bool :=
  pyEndswith ".md" (pyLower f) && (read_file fs f).isSome

/-- The body of `main`'s processing loop: read one file and process its
content into a `ProcessedDocument` (`none` models an uncaught exception
while reading or processing). -/
def process_file (fs : List (String × String)) (f : String) : Option ProcessedDocument :=
  (read_file fs f).bind (fun c =>
    (process_content c).map (fun out => ProcessedDocument.mk f out))

/-- The processing loop of `main`: build the list of processed documents
in input order; a raised exception (`none`) propagates. -/
def process_batch (fs : List (String × String)) : List String → Option (List ProcessedDocument)
  | [] => some []
  | f :: rest =>
    (process_file fs f).bind (fun d => (process_batch fs rest).map (fun ds => d :: ds))

/-- The batch logic of `main` after the version check: filter the
requested paths, abort with exit code 2 when any path was dropped,
otherwise read and process every remaining document. -/
def main_batch (fs : List (String × String)) (files : List String) : MainResult :=
  let filepaths := files.filter (valid_path fs)
  if filepaths.length = files.length then
    match process_batch fs filepaths with
    | some docs => .ok docs
    | none => .crashed
  else .exitBadPaths

/-- Checker for adjacent duplicate inline-code delimiters: does the text
contain two backticks in a row? -/
def has_double_backtick : List Char → Bool
  | '`' :: '`' :: _ => true
  | _ :: rest => has_double_backtick rest
  | [] => false

/-! ## Claim theorems -/

set_option maxRecDepth 40000

/-- C1: the claim states that the prose rewrite pipeline is idempotent,
`rewrite(rewrite(s)) = rewrite(s)` for every prose input.  The code is
not: on the line `" Ctrl + F1"` the first pass wraps the chord in
`<kbd>` tags, which are unmarked text, and the second pass italicizes
the `Ctrl` inside the freshly inserted tag, so applying the formatter
twice differs from applying it once. -/
theorem c1_rewrite_not_idempotent :
    format_content " Ctrl + F1" = " <kbd>Ctrl</kbd> + <kbd>F1</kbd>" ∧
    format_content (format_content " Ctrl + F1") ≠ format_content " Ctrl + F1" :=
  ⟨by decide, by decide⟩

/-- C2: the claim states that concatenating the segments reproduces the
document byte for byte.  The quoted-string patterns are applied through
`re.split`, which keeps only the capture group of each match and drops
the two non-word characters around the quotes, so on
`say "hi" now` the segments concatenate to `say"hi"now`: two bytes are
lost. -/
theorem c2_segment_concatenation_drops_characters :
    sections_of "say \"hi\" now" = ["say", "\"hi\"", "now"] ∧
    String.join (sections_of "say \"hi\" now") ≠ "say \"hi\" now" :=
  ⟨by decide, by decide⟩

/-- C3: the claim states that a document whose first line is an
unterminated code fence is processed normally, the region degrading to
prose.  In the code, `is_code_block` only tests for a leading fence, so
the unterminated block is routed to `format_code_block`, whose anchored
pattern fails to match and whose `match.group(1)` then raises
`AttributeError` (modelled by `none`): processing the document fails
instead of returning. -/
theorem c3_unterminated_fence_raises :
    process_content "```\nhello" = none := by decide

/-- C6: the claim states that the pipeline ends with a pass collapsing
runs of adjacent inline-code delimiters, so that no output line contains
them.  In the code `replace_double_inline_code_marks` exists but is
absent from `FORMATTERS`, so the pipeline output can contain adjacent
backticks (input `a.gdb.gd`); moreover the helper's pattern is written
with `\b` in a non-raw string — a backspace character — so even applied
directly it leaves `` `a.gd``b.gd` `` unchanged and only collapses
backtick runs adjacent to a backspace. -/
theorem c6_collapse_pass_not_in_pipeline :
    process_content "a.gdb.gd" = some "`a.gd``b.gd`" ∧
    has_double_backtick "`a.gd``b.gd`".toList = true ∧
    replace_double_inline_code_marks "`a.gd``b.gd`" = "`a.gd``b.gd`" ∧
    replace_double_inline_code_marks "``\x08" = "`" :=
  ⟨by decide, by decide, by decide, by decide⟩

/-- C9: the claim states that the multi-word italicization rule skips
sequences in the allow-list and ALL-CAPS sequences.
`italicize_word_sequences` performs a plain substitution with no
exclusion check (only the single-word rule consults the allow-list, and
its regex can never match a two-word entry such as `stack overflow`), so
`Use Stack Overflow` is italicized despite the allow-list entry, and the
ALL-CAPS sequence `GODOT ENGINE` is italicized as well. -/
theorem c9_sequence_rule_ignores_allow_list :
    WORDS_TO_KEEP_UNFORMATTED.contains "stack overflow" = true ∧
    italicize_word_sequences "Use Stack Overflow" = "Use *Stack Overflow*" ∧
    italicize_word_sequences "on GODOT ENGINE" = "on *GODOT ENGINE*" ∧
    process_content "Use Stack Overflow" = some "Use *Stack Overflow*" :=
  ⟨by decide, by decide, by decide, by decide⟩

/-- Helper: `convertSpacesGo` copies a head character that is not a
space. -/
theorem convertSpacesGo_cons_ne (c : Char) (hc : c ≠ ' ') (l : List Char) :
    convertSpacesGo (c :: l) = c :: convertSpacesGo l := by
  rw [convertSpacesGo.eq_def]
  split
  · next rest heq =>
    obtain ⟨h1, -⟩ := List.cons.inj heq
    exact absurd h1 hc
  · next c' rest' heq =>
    obtain ⟨h1, h2⟩ := List.cons.inj heq
    rw [h1, h2]
  · next heq => exact absurd heq (by simp)

/-- Helper: `convertSpacesGo` is the identity on space-free text. -/
theorem convertSpacesGo_no_space (l : List Char) (h : ' ' ∉ l) :
    convertSpacesGo l = l := by
  induction l with
  | nil => rfl
  | cons c rest ih =>
    have hc : c ≠ ' ' := fun hce => h (hce ▸ List.mem_cons_self c rest)
    rw [convertSpacesGo_cons_ne c hc rest, ih (fun hm => h (List.mem_cons_of_mem c hm))]

/-- C8 counterexample: the claim states that only leading indentation is
converted and that a run of four spaces that is not leading indentation
is left unchanged; the code converts the mid-line run of `"x    y"`. -/
theorem c8_nonleading_run_also_converted :
    convert_spaces_to_tabs "x    y" = "x\ty" ∧ "x\ty" ≠ "x    y" :=
  ⟨by decide, by decide⟩

/-- C8 amended: `convert_spaces_to_tabs` is Python
`content.replace(" " * TAB_WIDTH, "\t")`, which converts every run of
four spaces wherever it occurs — leading indentation and mid-line runs
alike: surrounded by space-free text, a four-space run always becomes
one tab. -/
theorem c8_spaces_converted_everywhere (u v : List Char)
    (hu : ' ' ∉ u) (hv : ' ' ∉ v) :
    convert_spaces_to_tabs (String.mk (u ++ ' ' :: ' ' :: ' ' :: ' ' :: v))
      = String.mk (u ++ '\t' :: v) := by
  unfold convert_spaces_to_tabs
  show String.mk (convertSpacesGo (u ++ ' ' :: ' ' :: ' ' :: ' ' :: v)) = _
  congr 1
  induction u with
  | nil =>
    show convertSpacesGo (' ' :: ' ' :: ' ' :: ' ' :: v) = '\t' :: v
    rw [show convertSpacesGo (' ' :: ' ' :: ' ' :: ' ' :: v) = '\t' :: convertSpacesGo v from rfl,
      convertSpacesGo_no_space v hv]
  | cons c u' ih =>
    have hc : c ≠ ' ' := fun hce => hu (hce ▸ List.mem_cons_self c u')
    have hu' : ' ' ∉ u' := fun hm => hu (List.mem_cons_of_mem c hm)
    show convertSpacesGo (c :: (u' ++ ' ' :: ' ' :: ' ' :: ' ' :: v)) = c :: (u' ++ '\t' :: v)
    rw [convertSpacesGo_cons_ne c hc _, ih hu']

/-- C8 witness: instantiating the amended statement at `u = "x"`,
`v = "y"`. -/
theorem c8_spaces_converted_everywhere_witness :
    (' ' ∉ ['x']) ∧ (' ' ∉ ['y']) ∧
    convert_spaces_to_tabs (String.mk (['x'] ++ ' ' :: ' ' :: ' ' :: ' ' :: ['y']))
      = String.mk (['x'] ++ '\t' :: ['y']) :=
  ⟨by decide, by decide, c8_spaces_converted_everywhere ['x'] ['y'] (by decide) (by decide)⟩

/-- C10: markdown headings and link/image expressions are isolated by
the `RE_TO_IGNORE` split and re-emitted verbatim: any chunk matching
`RE_TO_IGNORE` at its start is passed through `process_chunk` unchanged;
the heading and image examples do match the pattern; and on a whole
document the heading line survives byte-identically while the prose
below it is still formatted. -/
theorem c10_ignored_chunks_pass_through :
    (∀ block chunk : String, chunk ∈ prose_chunks block →
      reMatchStart RE_TO_IGNORE chunk = true → process_chunk chunk = chunk) ∧
    reMatchStart RE_TO_IGNORE "# My 10 Rules" = true ∧
    reMatchStart RE_TO_IGNORE "![alt 2](img/shot 2.png)" = true ∧
    process_content "# My 10 Rules\nuse 10 now" = some "# My 10 Rules\nuse `10` now" := by
  refine ⟨?_, by decide, by decide, by decide⟩
  intro block chunk _ hmatch
  simp [process_chunk, hmatch]

/-- C10 witness: the heading chunk of a concrete document passes through
unchanged. -/
theorem c10_ignored_chunks_pass_through_witness :
    ("# My 10 Rules" ∈ prose_chunks "# My 10 Rules\nuse 10 now") ∧
    process_chunk "# My 10 Rules" = "# My 10 Rules" :=
  ⟨by decide,
   c10_ignored_chunks_pass_through.1 "# My 10 Rules\nuse 10 now" "# My 10 Rules"
     (by decide) (by decide)⟩

/-- C4 counterexample: the claim states a missing path is reported and
skipped while the rest of the batch is processed; in the code a single
bad path aborts the whole batch with exit code 2 (the same batch without
the bad path processes fine). -/
theorem c4_one_bad_path_aborts_whole_batch :
    main_batch [("a.md", "hi")] ["a.md", "missing.md"] = MainResult.exitBadPaths ∧
    main_batch [("a.md", "hi")] ["a.md"] = MainResult.ok [ProcessedDocument.mk "a.md" "hi"] :=
  ⟨by decide, by decide⟩

/-- Helper for C4: a list of readable, processable files maps to as many
processed documents. -/
theorem process_batch_all_some (fs : List (String × String)) (l : List String)
    (hl : ∀ f ∈ l, ((read_file fs f).bind process_content).isSome = true) :
    ∃ docs, process_batch fs l = some docs ∧ docs.length = l.length := by
  induction l with
  | nil => exact ⟨[], rfl, rfl⟩
  | cons f rest ih =>
    obtain ⟨docs, hm, hlen⟩ := ih (fun x hx => hl x (List.mem_cons_of_mem f hx))
    have hf := hl f (List.mem_cons_self f rest)
    cases hr : read_file fs f with
    | none => rw [hr] at hf; simp at hf
    | some c =>
      rw [hr] at hf
      simp only [Option.some_bind] at hf
      cases hp : process_content c with
      | none => rw [hp] at hf; simp at hf
      | some out =>
        refine ⟨ProcessedDocument.mk f out :: docs, ?_, by simp [hlen]⟩
        rw [process_batch]
        simp [process_file, hr, hp, hm]

/-- C4 amended: any missing or non-markdown path among the requested
files makes the run abort with exit code 2 before any document is
processed; only when every requested path is an existing markdown file
(and each document processes without raising) is every document in the
batch processed, one output document per input. -/
theorem c4_all_valid_batch_processes_all (fs : List (String × String)) (files : List String)
    (h1 : ∀ f ∈ files, valid_path fs f = true)
    (h2 : ∀ f ∈ files, ((read_file fs f).bind process_content).isSome = true) :
    ∃ docs, main_batch fs files = MainResult.ok docs ∧ docs.length = files.length := by
  have hfilter : files.filter (valid_path fs) = files := List.filter_eq_self.mpr h1
  obtain ⟨docs, hm, hlen⟩ := process_batch_all_some fs files h2
  refine ⟨docs, ?_, hlen⟩
  unfold main_batch
  simp [hfilter, hm]

/-- C4 witness: instantiating the amended statement on a one-file batch. -/
theorem c4_all_valid_batch_processes_all_witness :
    ∃ docs, main_batch [("a.md", "hi")] ["a.md"] = MainResult.ok docs ∧
      docs.length = ["a.md"].length :=
  c4_all_valid_batch_processes_all [("a.md", "hi")] ["a.md"] (by decide) (by decide)

/-- Helper: destructure a two-character `isPrefixOf`. -/
theorem isPrefixOf_pair {a b : Char} {l : List Char}
    (h : [a, b].isPrefixOf l = true) : ∃ t, l = a :: b :: t := by
  match l with
  | [] => simp [List.isPrefixOf] at h
  | [c] => simp [List.isPrefixOf] at h
  | c :: d :: t =>
    simp only [List.isPrefixOf, Bool.and_eq_true, beq_iff_eq] at h
    obtain ⟨hac, hbd, -⟩ := h
    exact ⟨t, by rw [hac, hbd]⟩

/-- C5: a segment recognised as a code block is handed to
`format_code_block` only (the prose rewrite rules are never applied to
it), and a template-tag segment — one delimited by the template braces —
is emitted by `process_block` byte-identically. -/
theorem c5_code_and_template_segments_bypass_prose_rules
    (content cb tb : String)
    (_hcb : cb ∈ sections_of content) (_htb : tb ∈ sections_of content)
    (hc : is_code_block cb = true)
    (h1 : pyStartswith "\x7b%" tb = true)
    (h2 : pyEndswith "%\x7d" tb = true) :
    process_block cb = format_code_block cb ∧ process_block tb = some tb := by
  constructor
  · simp [process_block, hc]
  · have e1 : "\x7b%".toList = ['\x7b', '%'] := rfl
    have e2 : "%\x7d".toList.reverse = ['\x7d', '%'] := rfl
    rw [pyStartswith, e1] at h1
    rw [pyEndswith, e2] at h2
    obtain ⟨t, ht⟩ := isPrefixOf_pair h1
    obtain ⟨u, hu⟩ := isPrefixOf_pair h2
    have hcode : is_code_block tb = false := by
      rw [is_code_block, pyStartswith, ht]
      simp [List.isPrefixOf]
    have hlstrip : (pyLstrip tb).toList = tb.toList := by
      rw [pyLstrip, ht]
      simp [List.dropWhile, pyIsSpace]
    have hrstrip : (pyRstrip tb).toList.reverse = tb.toList.reverse := by
      rw [pyRstrip, hu]
      simp [List.dropWhile, pyIsSpace]
    have hunf : is_unformatted_block tb = true := by
      rw [is_unformatted_block, ignore_pairs]
      simp only [List.any_cons, List.any_nil, Bool.or_eq_true, Bool.and_eq_true]
      refine Or.inr (Or.inr (Or.inr (Or.inl ⟨?_, ?_⟩)))
      · rw [pyStartswith, e1, hlstrip, ht]
        simp [List.isPrefixOf]
      · rw [pyEndswith, e2, hrstrip, hu]
        simp [List.isPrefixOf]
    rw [process_block, hcode, hunf]
    simp

/-- C5 witness: a concrete document holding a code-block segment and a
template-tag segment, with both conclusions evaluated. -/
theorem c5_code_and_template_segments_bypass_prose_rules_witness :
    process_block "```gd\ny\n```" = format_code_block "```gd\ny\n```" ∧
    process_block "\x7b% t %\x7d" = some "\x7b% t %\x7d" :=
  c5_code_and_template_segments_bypass_prose_rules
    "x ```gd\ny\n``` z \x7b% t %\x7d w" "```gd\ny\n```" "\x7b% t %\x7d"
    (by decide) (by decide) (by decide) (by decide) (by decide)

/-- Helper: `takeWhile` over a list that satisfies the predicate followed
by a stopper. -/
theorem takeWhile_append_stop (p : Char → Bool) (u : List Char)
    (hu : ∀ c ∈ u, p c = true) (c : Char) (hc : p c = false) (v : List Char) :
    (u ++ c :: v).takeWhile p = u := by
  induction u with
  | nil => simp [List.takeWhile_cons, hc]
  | cons a u' ih =>
    have ha : p a = true := hu a (List.mem_cons_self a u')
    simp [List.takeWhile_cons, ha,
      ih (fun x hx => hu x (List.mem_cons_of_mem a hx))]

/-- Helper: `dropWhile` over a list that satisfies the predicate followed
by a stopper. -/
theorem dropWhile_append_stop (p : Char → Bool) (u : List Char)
    (hu : ∀ c ∈ u, p c = true) (c : Char) (hc : p c = false) (v : List Char) :
    (u ++ c :: v).dropWhile p = c :: v := by
  induction u with
  | nil => simp [List.dropWhile_cons, hc]
  | cons a u' ih =>
    have ha : p a = true := hu a (List.mem_cons_self a u')
    simp [List.dropWhile_cons, ha,
      ih (fun x hx => hu x (List.mem_cons_of_mem a hx))]

/-- Helper: in a backtick-free body followed by the closing fence, the
first occurrence of the fence is exactly the closing one. -/
theorem splitFirstOcc_closing (body : List Char) (h : '`' ∉ body) :
    splitFirstOcc fence3 (body ++ fence3) = some (body, []) := by
  induction body with
  | nil => rfl
  | cons c rest ih =>
    have hc : c ≠ '`' := fun he => h (he ▸ List.mem_cons_self c rest)
    have hpre : fence3.isPrefixOf (c :: (rest ++ fence3)) = false := by
      simp only [fence3, List.isPrefixOf, Bool.and_eq_false_iff]
      left
      simp [hc, Ne.symm hc]
    rw [List.cons_append, splitFirstOcc, hpre]
    simp [ih (fun hm => h (List.mem_cons_of_mem c hm))]

/-- C7: a well-formed code block — the opening fence with an (all
lowercase, possibly empty) language tag, a newline, a backtick-free body
and the closing fence — is re-emitted with its original language tag
when one is present, and with the default tag `gdscript` substituted
when the tag is empty; the body passes through the code-block
transformation only. -/
theorem c7_code_block_keeps_or_defaults_language_tag (tag body : List Char)
    (htag : ∀ c ∈ tag, c.isLower = true) (hbody : '`' ∉ body) :
    format_code_block_l (fence3 ++ (tag ++ '\n' :: (body ++ fence3)))
      = some (fence3 ++ (if tag.isEmpty then "gdscript".toList else tag)
          ++ '\n' :: code_body_transform body ++ fence3) := by
  have h1 : (tag ++ '\n' :: (body ++ fence3)).takeWhile Char.isLower = tag :=
    takeWhile_append_stop _ tag htag '\n' (by decide) _
  have h2 : (tag ++ '\n' :: (body ++ fence3)).dropWhile Char.isLower
      = '\n' :: (body ++ fence3) :=
    dropWhile_append_stop _ tag htag '\n' (by decide) _
  show format_code_block_l ('`' :: '`' :: '`' :: (tag ++ '\n' :: (body ++ fence3))) = _
  rw [format_code_block_l, h1, h2]
  simp only [splitFirstOcc_closing body hbody]

/-- C7 witness: a concrete block with tag `gd` is re-emitted unchanged
(its body needs no transformation). -/
theorem c7_code_block_keeps_or_defaults_language_tag_witness :
    (∀ c ∈ ['g', 'd'], c.isLower = true) ∧
    format_code_block_l ("```gd\nx = 1\n```".toList) = some ("```gd\nx = 1\n```".toList) := by
  refine ⟨by decide, ?_⟩
  have h := c7_code_block_keeps_or_defaults_language_tag ['g', 'd'] "x = 1\n".toList
    (by decide) (by decide)
  exact h.trans (by decide)
